import Mathlib

set_option maxHeartbeats 1000000

/-!
Verification of `torch/_inductor/bisect_helper.py` (the cross-invocation
bisection engine).  The Python module keeps its state in

  * environment variables (`TORCH_BISECT_BACKEND`, `TORCH_BISECT_SUBSYSTEM`,
    `TORCH_BISECT_MAX`),
  * files under a cache directory (`bisect_status.txt`,
    `<backend>/<subsystem>_run_state.txt`,
    `<backend>/<subsystem>_bisect_range.txt`),
  * two process-local globals (`subsystem_call_counter`,
    `call_counter_debug_info`) and the class attribute `bisection_enabled`.

We embed that state as an explicit record `BState` and every method of
`BisectionManager` as a pure function threading a `BState`.  File contents
are stored at the value level: `update_bisect_status` always writes the two
lines `backend=...` / `subsystem=...`, `update_run_state` a single line, and
`update_bisect_range` the two lines `low=...` / `high=...`; the readers
(`get_backend`, `get_run_state`, `get_bisect_range`) parse exactly those
shapes back, with `str.strip()` the identity on every value the writers
produce (none contains whitespace) and `int(str(n)) = n`.  An absent file is
`none`.  Python exceptions (`RuntimeError`, `ValueError`, `KeyError`) are
modelled with `Except String` (the raising call also returns the state as it
stood when the exception escaped, since the persisted files survive a crash).
Machine integers do not occur: Python's `int` is unbounded, embedded as `Int`
(call counters, which are only ever incremented from 0, as `Nat`).
Python's floor division `//` by the positive literal `2` is embedded as
`Int` division `/` (Euclidean division agrees with floor division for a
positive divisor).
-/

instance {ε α : Type} [DecidableEq ε] [DecidableEq α] : DecidableEq (Except ε α) :=
  fun x y =>
    match x, y with
    | .ok a, .ok b =>
      if h : a = b then isTrue (by rw [h]) else isFalse (by simp [h])
    | .ok _, .error _ => isFalse (by simp)
    | .error _, .ok _ => isFalse (by simp)
    | .error e, .error f =>
      if h : e = f then isTrue (by rw [h]) else isFalse (by simp [h])

/-- The mutable state visible to `BisectionManager` (environment, files under
the cache dir, and the process-local counters/caches).  `runStates b s` is
the content of `<b>/<s>_run_state.txt` (the single line written by
`update_run_state`), `ranges b s` the `(low, high)` pair stored in
`<b>/<s>_bisect_range.txt`, `statusFile` the `(backend, subsystem)` pair in
`bisect_status.txt`; `none` means the file does not exist. -/
structure BState where
  enabled : Bool
  envBackend : Option String
  envSubsystem : Option String
  envMax : Option String
  statusFile : Option (String × String)
  runStates : String → String → Option String
  ranges : String → String → Option (Int × Int)
  counters : String → Nat
  debugInfo : List (Nat × String)

/-- The module-level `BACKENDS` dictionary (insertion ordered, as in
Python 3). -/
def BACKENDS : List (String × List String) :=
  [("eager", []),
   ("aot_eager", []),
   ("aot_eager_decomp_partition", ["decomposition"]),
   ("inductor", ["post_grad_passes", "lowerings"])]

/-- Python truthiness of `get_env_val(...)` used in `if val := ...:` —
`None` and the empty string are falsy. -/
def truthy : Option String → Option String
  | some v => if v = "" then none else some v
  | none => none

/-- `BisectionManager.get_backend`: the env override wins when truthy,
otherwise the `backend=` line of `bisect_status.txt`, otherwise `""`. -/
def get_backend (s : BState) : String :=
  match truthy s.envBackend with
  | some v => v
  | none =>
    match s.statusFile with
    | some bs => bs.1
    | none => ""

/-- `BisectionManager.get_subsystem`. -/
def get_subsystem (s : BState) : String :=
  match truthy s.envSubsystem with
  | some v => v
  | none =>
    match s.statusFile with
    | some bs => bs.2
    | none => ""

/-- `BisectionManager.get_run_state`: first line of the run-state file
(`strip()` is the identity on the values ever written), `""` if absent. -/
def get_run_state (s : BState) (backend_name subsystem_name : String) : String :=
  match s.runStates backend_name subsystem_name with
  | some line => line
  | none => ""

/-- `BisectionManager.get_bisect_range`: parses the `low=`/`high=` lines,
raising `RuntimeError` when the file was never written. -/
def get_bisect_range (s : BState) (backend_name subsystem_name : String) :
    Except String (Int × Int) :=
  match s.ranges backend_name subsystem_name with
  | some lh => .ok lh
  | none =>
    .error ("Trying to get bisect range when it is not set: subsystem "
      ++ subsystem_name)

/-- `BisectionManager.update_run_state`: overwrite the run-state file. -/
def update_run_state (s : BState) (backend_name subsystem_name run_state : String) :
    BState :=
  { s with runStates := fun b t =>
      if b = backend_name ∧ t = subsystem_name then some run_state
      else s.runStates b t }

/-- `BisectionManager.update_bisect_status`: overwrite `bisect_status.txt`. -/
def update_bisect_status (s : BState) (backend_name subsystem_name : String) :
    BState :=
  { s with statusFile := some (backend_name, subsystem_name) }

/-- `BisectionManager.update_bisect_range`: overwrite the range file. -/
def update_bisect_range (s : BState) (backend_name subsystem_name : String)
    (low high : Int) : BState :=
  { s with ranges := fun b t =>
      if b = backend_name ∧ t = subsystem_name then some (low, high)
      else s.ranges b t }

/-- `reset_counters()`: clears `subsystem_call_counter` and
`call_counter_debug_info`. -/
def reset_counters (s : BState) : BState :=
  { s with counters := fun _ => 0, debugInfo := [] }

/-- `BisectionManager.get_system_counter`: returns the pre-increment value
and (when `increment`) bumps the per-subsystem counter. -/
def get_system_counter (s : BState) (name : String) (increment : Bool) :
    Nat × BState :=
  let curr := s.counters name
  (curr,
    if increment then
      { s with counters := fun n => if n = name then curr + 1 else s.counters n }
    else s)

/-- `BisectionManager.disable_subsystem` — the guard-hook decision.  The
lazily evaluated `debug_info` callable is embedded as the string it would
produce (`none` when no producer is supplied).  The result is the suppress
decision, or the escaping exception, paired with the post-call state. -/
def disable_subsystem (s : BState) (backend subsystem : String)
    (debug_info : Option String) : Except String Bool × BState :=
  if s.enabled = false then (.ok false, s)
  else if ¬ (get_backend s = backend) then (.ok false, s)
  else if ¬ (get_subsystem s = subsystem) then (.ok false, s)
  else
    match truthy s.envMax with
    | some val =>
      let cs := get_system_counter s subsystem true
      match val.toInt? with
      | some m => (.ok (decide ((cs.1 : Int) > m)), cs.2)
      | none => (.error "ValueError: invalid literal for int()", cs.2)
    | none =>
      let run_state := get_run_state s backend subsystem
      if run_state = "test_disable" then (.ok true, s)
      else if run_state = "find_max_bounds" then
        -- update_bisect_range(backend, subsystem, 0, get_system_counter(subsystem, increment=True))
        let cs := get_system_counter s subsystem true
        (.ok false, update_bisect_range cs.2 backend subsystem 0 (cs.1 : Int))
      else
        -- any other run state falls through to the bisection-range branch
        match get_bisect_range s backend subsystem with
        | .error e => (.error e, s)
        | .ok lh =>
          let low := lh.1
          let high := lh.2
          let midpoint := (low + high) / 2
          let cs := get_system_counter s subsystem true
          -- note the source tests `(low - high) <= 2`, not `high - low <= 2`
          let s2 :=
            if (cs.1 : Int) ≥ low ∧ (cs.1 : Int) ≤ high ∧ low - high ≤ 2 ∧
                debug_info.isSome then
              { cs.2 with debugInfo := (cs.1, debug_info.getD "") :: cs.2.debugInfo }
            else cs.2
          (.ok (decide ((cs.1 : Int) > midpoint)), s2)

/-- Outcome of one iteration of the `while True` loop in
`perform_bisection`: `ret r` models `return r`, `cont sub` models falling
through to the next iteration (with the possibly advanced subsystem). -/
inductive StepRes where
  | ret : Bool → StepRes
  | cont : String → StepRes
deriving DecidableEq

/-- `BisectionManager.advance_subsystem` (`BACKENDS[...]` raising `KeyError`
and `list.index` raising `ValueError` for unknown names). -/
def advance_subsystem (s : BState) (curr_backend curr_subsystem : String) :
    Except String (Option String × BState) :=
  match List.lookup curr_backend BACKENDS with
  | none => .error "KeyError"
  | some current_subsystems =>
    match current_subsystems.findIdx? (fun x => x = curr_subsystem) with
    | none => .error "ValueError"
    | some i =>
      if i < current_subsystems.length - 1 then
        let nxt := current_subsystems.getD (i + 1) ""
        .ok (some nxt,
          update_run_state (update_bisect_status s curr_backend nxt)
            curr_backend nxt "test_disable")
      else .ok (none, s)

/-- `BisectionManager.advance_backend`. -/
def advance_backend (s : BState) (curr_backend : String) :
    Except String (Option String × BState) :=
  let keys := BACKENDS.map (fun p => p.1)
  match keys.findIdx? (fun x => x = curr_backend) with
  | none => .error "ValueError"
  | some i =>
    if i < keys.length - 1 then
      let nxt := keys.getD (i + 1) ""
      .ok (some nxt, update_bisect_status s nxt "")
    else .ok (none, s)

/-- One iteration of the `while True` loop of
`BisectionManager.perform_bisection`, with the external predicate `fn`
embedded as a state transformer (its guarded call-sites may consult the
guard hook and so mutate counters and files). -/
def perform_bisection_step (fn : BState → Bool × BState)
    (curr_backend curr_subsystem : String) (s : BState) :
    Except String StepRes × BState :=
  let run_state := get_run_state s curr_backend curr_subsystem
  let s0 := reset_counters s
  if run_state = "test_disable" then
    let r := fn s0
    if r.1 = false then
      match advance_subsystem r.2 curr_backend curr_subsystem with
      | .error e => (.error e, r.2)
      | .ok (none, s2) => (.ok (.ret false), s2)
      | .ok (some nxt, s2) => (.ok (.cont nxt), s2)
    else
      (.ok (.cont curr_subsystem),
        update_run_state r.2 curr_backend curr_subsystem "find_max_bounds")
  else if run_state = "find_max_bounds" then
    let r := fn s0
    if r.1 = true then
      (.error ("Function succeeded with \x27find_max_bounds\x27 status for "
        ++ curr_backend ++ " - " ++ curr_subsystem ++ "."), r.2)
    else
      match get_bisect_range r.2 curr_backend curr_subsystem with
      | .error e => (.error e, r.2)
      | .ok _ =>
        (.ok (.cont curr_subsystem),
          update_run_state r.2 curr_backend curr_subsystem "bisect")
  else if run_state = "bisect" then
    match get_bisect_range s0 curr_backend curr_subsystem with
    | .error e => (.error e, s0)
    | .ok lh =>
      let low := lh.1
      let high := lh.2
      let midpoint := (low + high) / 2
      let r := fn s0
      let s2 :=
        if r.1 then
          update_bisect_range r.2 curr_backend curr_subsystem (midpoint + 1) high
        else
          update_bisect_range r.2 curr_backend curr_subsystem low midpoint
      match get_bisect_range s2 curr_backend curr_subsystem with
      | .error e => (.error e, s2)
      | .ok lh2 =>
        if lh2.1 = lh2.2 then (.ok (.ret true), s2)
        else (.ok (.cont curr_subsystem), s2)
  else (.error ("Unexpected run_state " ++ run_state), s0)

/-- `BisectionManager.perform_bisection` with `cli_interface=False`: iterate
the loop body.  The extra `Nat` in the result counts the executed
iterations (one probe of `fn` each); the fuel argument only serves
termination, running out is reported as an artificial error. -/
def perform_bisection (fn : BState → Bool × BState) (curr_backend : String) :
    Nat → String → BState → Except String Bool × BState × Nat
  | 0, _, s => (.error "out of fuel", s, 0)
  | fuel + 1, curr_subsystem, s =>
    match perform_bisection_step fn curr_backend curr_subsystem s with
    | (.error e, s1) => (.error e, s1, 1)
    | (.ok (.ret r), s1) => (.ok r, s1, 1)
    | (.ok (.cont nxt), s1) =>
      match perform_bisection fn curr_backend fuel nxt s1 with
      | (res, s2, n) => (res, s2, n + 1)

/-- Outcome of one CLI-driven invocation (`cli_interface=True`):
`exitSuccess` models `sys.exit(0)`, `returned` a normal return of
`do_bisect` (the process then also terminates successfully), `usageError`
an escaping exception; each carries the state left behind. -/
inductive CliResult where
  | exitSuccess : BState → CliResult
  | returned : List String → Int → BState → CliResult
  | usageError : String → BState → CliResult

/-- `true` on the two successful-termination outcomes. -/
def CliResult.isSuccessB : CliResult → Bool
  | .exitSuccess _ => true
  | .returned _ _ _ => true
  | .usageError _ _ => false

/-- The state a `CliResult` leaves behind. -/
def CliResult.state : CliResult → BState
  | .exitSuccess s => s
  | .returned _ _ s => s
  | .usageError _ s => s

/-- One CLI invocation of `BisectionManager.do_bisect` with
`cli_interface=True`: the cleanup guard is skipped, at most one loop
iteration runs, and `sys.exit(0)` fires inside `perform_bisection` (after a
continuing iteration) or at the bottom of `do_bisect`'s own loop.  The
first `if` models `initialize_system()` when no backend is recorded. -/
def do_bisect_cli_step (fn : BState → Bool × BState) (s : BState) : CliResult :=
  let sA :=
    if get_backend s = "" then
      update_bisect_status s (BACKENDS.headD ("", [])).1 ""
    else s
  let curr_backend := get_backend sA
  let curr_subsystem := get_subsystem sA
  let s0 := reset_counters sA
  if ¬ (curr_subsystem = "") then
    match perform_bisection_step fn curr_backend curr_subsystem s0 with
    | (.error e, s1) => .usageError e s1
    | (.ok (.ret true), s1) =>
      -- do_bisect: curr_subsystem = get_subsystem(); low, _ = get_bisect_range(...)
      let sub2 := get_subsystem s1
      match get_bisect_range s1 curr_backend sub2 with
      | .error e => .usageError e s1
      | .ok lh => .returned [curr_backend, sub2] lh.1 s1
    | (.ok (.ret false), s1) =>
      match advance_subsystem s1 curr_backend curr_subsystem with
      | .error e => .usageError e s1
      | .ok (none, s2) => .returned [curr_backend] 0 s2
      | .ok (some _, s2) => .exitSuccess s2
    | (.ok (.cont _), s1) => .exitSuccess s1
  else
    let r := fn s0
    if r.1 = true then
      match advance_backend r.2 curr_backend with
      | .error e => .usageError e r.2
      | .ok (none, s2) => .returned [] 0 s2
      | .ok (some _, s2) => .exitSuccess s2
    else
      match List.lookup curr_backend BACKENDS with
      | none => .usageError "KeyError" r.2
      | some current_subsystems =>
        match current_subsystems with
        | [] => .returned [curr_backend] 0 r.2
        | sub0 :: _ =>
          .exitSuccess
            (update_run_state (update_bisect_status r.2 curr_backend sub0)
              curr_backend sub0 "test_disable")

/-- `command_line_usage` handling of `good`/`bad` (after argument
dispatch): raise `ValueError` unless a backend is recorded, then run one
`do_bisect(..., cli_interface=True)` step with the given predicate. -/
def run_good_bad (fn : BState → Bool × BState) (s : BState) : CliResult :=
  if get_backend s = "" then
    .usageError "Must call start prior to good or bad" s
  else do_bisect_cli_step fn s

/-- The CLI's `test_function` for command `cmd`: the constant predicate
`command == "good"`, which never touches any state. -/
def command_good_bad (cmd : String) (s : BState) : CliResult :=
  run_good_bad (fun st => (decide (cmd = "good"), st)) s

/-- The CLI's constant predicate instrumented to count its invocations in
the scratch counter key `"#fn_calls"` (which no other code reads or
writes); it returns exactly the value `test_function` returns. -/
def fnMark (cmd : String) : BState → Bool × BState :=
  fun st =>
    (decide (cmd = "good"),
      { st with counters := fun n =>
          if n = "#fn_calls" then st.counters n + 1 else st.counters n })

/-- `get_is_bisection_enabled`: the source compares the *string* results of
`get_subsystem()` / `get_backend()` against `None` (`is not None`); since
both functions return a `str`, each comparison is the `isSome` of a value
that is always present. -/
def get_is_bisection_enabled (s : BState) : Bool :=
  (some (get_subsystem s)).isSome || (some (get_backend s)).isSome

/-- A probe of the external predicate whose workload hits the guarded
call-site `ncalls` times (each hit consults `disable_subsystem`, as
`lowerings`/`post_grad_passes` do per guarded call) and then reports
`res`. -/
def runGuardedCalls (backend subsystem : String) :
    Nat → BState → Except String Unit × BState
  | 0, s => (.ok (), s)
  | n + 1, s =>
    match disable_subsystem s backend subsystem none with
    | (.ok _, s1) => runGuardedCalls backend subsystem n s1
    | (.error e, s1) => (.error e, s1)

/-- Probe returning `res` after `ncalls` guarded calls. -/
def probeCalls (backend subsystem : String) (ncalls : Nat) (res : Bool) :
    BState → Bool × BState :=
  fun s => (res, (runGuardedCalls backend subsystem ncalls s).2)

/-- The midpoint the guard hook suppresses above, read from the persisted
range (0 when absent). -/
def midOf (s : BState) (backend subsystem : String) : Int :=
  match s.ranges backend subsystem with
  | some lh => (lh.1 + lh.2) / 2
  | none => 0

/-- Monotone probe for a workload whose culprit call index is `c`: the
suppression policy of the current range suppresses exactly the calls with
index above the midpoint, so the issue is fixed (the predicate holds) iff
the culprit is suppressed, i.e. iff `mid < c`. -/
def monoProbe (backend subsystem : String) (c : Int) : BState → Bool × BState :=
  fun s => (decide (midOf s backend subsystem < c), s)

/-- Modelled from the spec: the monotone predicate exactly as §8 words it —
"false for indices < culprit-suppression-threshold, true at/after", i.e.
false when the midpoint is below the threshold `c` and true at or above
it.  (Used to compare the spec's stated polarity with the code.) -/
def specPolarityProbe (backend subsystem : String) (c : Int) :
    BState → Bool × BState :=
  fun s => (decide (c ≤ midOf s backend subsystem), s)

/-- A fresh state: bisection enabled (as after `do_bisect` flips the flag,
or after module import, see C8), no env overrides, no files, zero
counters. -/
def initState : BState :=
  { enabled := true, envBackend := none, envSubsystem := none, envMax := none,
    statusFile := none, runStates := fun _ _ => none, ranges := fun _ _ => none,
    counters := fun _ => 0, debugInfo := [] }

/-! ### Helper lemmas about the state operations -/

theorem reset_counters_ranges (s : BState) : (reset_counters s).ranges = s.ranges := rfl

theorem reset_counters_runStates (s : BState) :
    (reset_counters s).runStates = s.runStates := rfl

theorem get_run_state_reset (s : BState) (b t : String) :
    get_run_state (reset_counters s) b t = get_run_state s b t := rfl

theorem ranges_update_self (s : BState) (b t : String) (lo hi : Int) :
    (update_bisect_range s b t lo hi).ranges b t = some (lo, hi) := by
  simp [update_bisect_range]

theorem get_run_state_update_range (s : BState) (b t b' t' : String) (lo hi : Int) :
    get_run_state (update_bisect_range s b t lo hi) b' t' = get_run_state s b' t' := rfl

theorem get_run_state_update_self (s : BState) (b t rs : String) :
    get_run_state (update_run_state s b t rs) b t = rs := by
  simp [get_run_state, update_run_state]

/-! ### Claims -/

/-- Claim C8: `get_is_bisection_enabled` compares the always-present string
results of `get_subsystem()`/`get_backend()` against `None`, so it returns
`true` for every persistent-store state and every environment, and the
module-initialization assignment `bisection_enabled = get_is_bisection_enabled()`
therefore always sets the flag to `true`, even when no session was ever
started. -/
theorem c8_get_is_bisection_enabled_always_true (s : BState) :
    get_is_bisection_enabled s = true ∧
    ({ s with enabled := get_is_bisection_enabled s } : BState).enabled = true :=
  ⟨rfl, rfl⟩

/-- Claim C9: querying the Range for a `(backend, subsystem)` for which no
Range was ever persisted raises a `RuntimeError` rather than returning a
default value. -/
theorem c9_get_bisect_range_raises (s : BState) (backend subsystem : String)
    (h : s.ranges backend subsystem = none) :
    get_bisect_range s backend subsystem =
      .error ("Trying to get bisect range when it is not set: subsystem "
        ++ subsystem) := by
  simp [get_bisect_range, h]

theorem c9_witness :
    initState.ranges "inductor" "lowerings" = none ∧
    get_bisect_range initState "inductor" "lowerings" =
      .error ("Trying to get bisect range when it is not set: subsystem "
        ++ "lowerings") :=
  ⟨rfl, c9_get_bisect_range_raises initState "inductor" "lowerings" rfl⟩

/-- Claim C4: with bisection enabled, the cursor matching, no
`TORCH_BISECT_MAX` override, and persisted Run State `bisect` with Range
`(low, high)`, the guard hook suppresses iff the counter value observed
for this call exceeds `mid = (low + high) // 2`, and it increments the
counter exactly once. -/
theorem c4_guard_bisect_decision (s : BState) (backend subsystem : String)
    (dbg : Option String) (low high : Int)
    (hen : s.enabled = true)
    (hb : get_backend s = backend)
    (hsub : get_subsystem s = subsystem)
    (hmax : truthy s.envMax = none)
    (hrs : get_run_state s backend subsystem = "bisect")
    (hr : s.ranges backend subsystem = some (low, high)) :
    (disable_subsystem s backend subsystem dbg).1 =
      .ok (decide ((s.counters subsystem : Int) > (low + high) / 2)) ∧
    (disable_subsystem s backend subsystem dbg).2.counters subsystem =
      s.counters subsystem + 1 := by
  simp only [disable_subsystem, hen, hb, hsub, hmax, hrs, get_bisect_range, hr,
    get_system_counter]
  norm_num
  refine ⟨rfl, ?_⟩
  split
  · next h => exact absurd h (by decide)
  · split
    · next h => exact absurd h (by decide)
    · split <;> simp

theorem c4_witness :
    let s := { initState with
      statusFile := some ("inductor", "lowerings"),
      runStates := fun b t =>
        if b = "inductor" ∧ t = "lowerings" then some "bisect" else none,
      ranges := fun b t =>
        if b = "inductor" ∧ t = "lowerings" then some (0, 5) else none,
      counters := fun n => if n = "lowerings" then 4 else 0 }
    (disable_subsystem s "inductor" "lowerings" none).1 =
      .ok (decide ((s.counters "lowerings" : Int) > (0 + 5) / 2)) ∧
    (disable_subsystem s "inductor" "lowerings" none).2.counters "lowerings" =
      s.counters "lowerings" + 1 := by
  exact c4_guard_bisect_decision _ "inductor" "lowerings" none 0 5
    rfl rfl rfl rfl (by decide) (by decide)

/-- A session state mid-bisect with the wide Range `(0, 10)` and five calls
already counted. -/
def c5state : BState :=
  { initState with
    statusFile := some ("inductor", "lowerings"),
    runStates := fun b t =>
      if b = "inductor" ∧ t = "lowerings" then some "bisect" else none,
    ranges := fun b t =>
      if b = "inductor" ∧ t = "lowerings" then some (0, 10) else none,
    counters := fun n => if n = "lowerings" then 5 else 0 }

/-- Claim C5 is a code bug: the source was meant to record debug info only
for a narrow range (the commented-out `# if high - low <= 2:` and the spec
both say `high - low ≤ 2`), but the live condition tests `(low - high) <= 2`,
which holds for every range with `low ≤ high + 2`.  At Range `(0, 10)`
(width `10 > 2`) and observed count `5` the Debug Info Cache is
nevertheless written. -/
theorem c5_debug_info_recorded_outside_narrow_range :
    ((10 : Int) - 0 > 2) ∧
    (disable_subsystem c5state "inductor" "lowerings" (some "diag")).2.debugInfo
      = [(5, "diag")] ∧
    (disable_subsystem c5state "inductor" "lowerings" (some "diag")).1 =
      .ok false := by
  refine ⟨by norm_num, by decide, by decide⟩

/-- Claim C6 as stated is false: a persisted Run State outside
{`test_disable`, `find_max_bounds`, `bisect`} does *not* make the guard
decision raise when a Range is persisted — `disable_subsystem` treats every
run state other than `test_disable`/`find_max_bounds` as the bisect branch.
Here run state `"garbage"` with Range `(0, 4)` yields the ordinary suppress
decision `False`. -/
theorem c6_counterexample :
    let s := { initState with
      statusFile := some ("inductor", "lowerings"),
      runStates := fun b t =>
        if b = "inductor" ∧ t = "lowerings" then some "garbage" else none,
      ranges := fun b t =>
        if b = "inductor" ∧ t = "lowerings" then some (0, 4) else none }
    get_run_state s "inductor" "lowerings" = "garbage" ∧
    ("garbage" : String) ≠ "test_disable" ∧
    ("garbage" : String) ≠ "find_max_bounds" ∧
    ("garbage" : String) ≠ "bisect" ∧
    (disable_subsystem s "inductor" "lowerings" none).1 = .ok false := by
  refine ⟨by decide, by decide, by decide, by decide, by decide⟩

/-- Claim C6 (amended): for a guard-hook call with matching cursor,
bisection enabled and no max-count override, a persisted Run State other
than `test_disable` or `find_max_bounds` (including absent/empty or
unrecognized values) dispatches to the bisect logic, which raises a fatal
error iff no Range was ever persisted; otherwise it returns a suppress
decision. -/
theorem c6_other_run_state_guard (s : BState) (backend subsystem : String)
    (dbg : Option String)
    (hen : s.enabled = true)
    (hb : get_backend s = backend)
    (hsub : get_subsystem s = subsystem)
    (hmax : truthy s.envMax = none)
    (h1 : ¬ get_run_state s backend subsystem = "test_disable")
    (h2 : ¬ get_run_state s backend subsystem = "find_max_bounds") :
    ((disable_subsystem s backend subsystem dbg).1 =
        .error ("Trying to get bisect range when it is not set: subsystem "
          ++ subsystem))
      ↔ s.ranges backend subsystem = none := by
  simp only [disable_subsystem, hen, hb, hsub, hmax, h1, h2, get_bisect_range]
  norm_num
  cases hr : s.ranges backend subsystem with
  | none => simp
  | some lh => simp

/-- One guarded call in the `find_max_bounds` state: count and persist
`[0, pre-increment counter]`, never suppress. -/
theorem disable_subsystem_fmb (s : BState) (backend subsystem : String)
    (hen : s.enabled = true) (hb : get_backend s = backend)
    (hsub : get_subsystem s = subsystem) (hmax : truthy s.envMax = none)
    (hrs : get_run_state s backend subsystem = "find_max_bounds") :
    disable_subsystem s backend subsystem none =
      (.ok false,
        update_bisect_range
          { s with counters := fun n =>
              if n = subsystem then s.counters subsystem + 1 else s.counters n }
          backend subsystem 0 (s.counters subsystem : Int)) := by
  have h1 : ¬ (("find_max_bounds" : String) = "test_disable") := by decide
  simp only [disable_subsystem, hen, hb, hsub, hmax, hrs, get_system_counter,
    if_neg h1]
  norm_num

/-- Executing `k` guarded calls in the `find_max_bounds` state: the calls
succeed, the counter advances by `k`, and (for `k ≥ 1`) the persisted range
becomes `[0, initial_counter + k - 1]`; environment, status, and run-state
files are untouched. -/
theorem runGuardedCalls_fmb (backend subsystem : String) (k : Nat) :
    ∀ s : BState,
      s.enabled = true →
      get_backend s = backend →
      get_subsystem s = subsystem →
      truthy s.envMax = none →
      get_run_state s backend subsystem = "find_max_bounds" →
      ∃ s1 : BState,
        runGuardedCalls backend subsystem k s = (.ok (), s1) ∧
        s1.counters subsystem = s.counters subsystem + k ∧
        (k = 0 → s1.ranges = s.ranges) ∧
        (1 ≤ k → s1.ranges backend subsystem =
          some (0, (s.counters subsystem : Int) + k - 1)) ∧
        s1.enabled = s.enabled ∧
        s1.envBackend = s.envBackend ∧
        s1.envSubsystem = s.envSubsystem ∧
        s1.envMax = s.envMax ∧
        s1.statusFile = s.statusFile ∧
        s1.runStates = s.runStates := by
  induction k with
  | zero =>
    intro s _ _ _ _ _
    exact ⟨s, rfl, by simp, fun _ => rfl, fun h => absurd h (by norm_num),
      rfl, rfl, rfl, rfl, rfl, rfl⟩
  | succ n ih =>
    intro s hen hb hsub hmax hrs
    have hstep := disable_subsystem_fmb s backend subsystem hen hb hsub hmax hrs
    set sMid : BState :=
      update_bisect_range
        { s with counters := fun n =>
            if n = subsystem then s.counters subsystem + 1 else s.counters n }
        backend subsystem 0 (s.counters subsystem : Int) with hsMid
    obtain ⟨s1, hrun, hcnt, hr0, hr1, he, he1, he2, he3, he4, he5⟩ :=
      ih sMid hen hb hsub hmax hrs
    refine ⟨s1, ?_, ?_, ?_, ?_, he, he1, he2, he3, he4, he5⟩
    · simp only [runGuardedCalls, hstep, hrun]
    · have : sMid.counters subsystem = s.counters subsystem + 1 := by
        simp [hsMid, update_bisect_range]
      omega
    · omega
    · intro _
      rcases Nat.eq_zero_or_pos n with hn | hn
      · subst hn
        have := hr0 rfl
        rw [this]
        have : sMid.ranges backend subsystem =
            some (0, (s.counters subsystem : Int)) := by
          simp [hsMid, update_bisect_range]
        rw [this]
        congr 1
        push_cast
        ring_nf
      · have := hr1 hn
        rw [this]
        have hc : sMid.counters subsystem = s.counters subsystem + 1 := by
          simp [hsMid, update_bisect_range]
        rw [hc]
        congr 1
        push_cast
        ring_nf

/-- Claim C1 (amended): with the cursor matching, bisection enabled, no max
override, Run State `find_max_bounds` and a probe whose guarded call-site
fires exactly `N ≥ 1` times (counters reset at the probe's start), the phase
persists Range `[0, N-1]` — not `[0, N]`: each call stores the
*pre-increment* counter value, so the last of `N` calls stores `N-1` — and
then transitions the Run State to `bisect`, the Range staying `[0, N-1]`.
(For `N = 0` no range line is ever written and the phase raises instead.) -/
theorem c1_find_max_bounds_persists (N : Nat) (backend subsystem : String)
    (s : BState) (hN : 1 ≤ N)
    (hen : s.enabled = true) (hb : get_backend s = backend)
    (hsub : get_subsystem s = subsystem) (hmax : truthy s.envMax = none)
    (hrs : get_run_state s backend subsystem = "find_max_bounds") :
    ∃ s2 : BState,
      perform_bisection_step (probeCalls backend subsystem N false)
          backend subsystem s = (.ok (.cont subsystem), s2) ∧
      s2.ranges backend subsystem = some (0, (N : Int) - 1) ∧
      get_run_state s2 backend subsystem = "bisect" := by
  have hen0 : (reset_counters s).enabled = true := hen
  have hb0 : get_backend (reset_counters s) = backend := hb
  have hsub0 : get_subsystem (reset_counters s) = subsystem := hsub
  have hmax0 : truthy (reset_counters s).envMax = none := hmax
  have hrs0 : get_run_state (reset_counters s) backend subsystem =
      "find_max_bounds" := hrs
  obtain ⟨s1, hrun, hcnt, _, hr1, _, _, _, _, _, _⟩ :=
    runGuardedCalls_fmb backend subsystem N (reset_counters s)
      hen0 hb0 hsub0 hmax0 hrs0
  have hrange : s1.ranges backend subsystem = some (0, (N : Int) - 1) := by
    have := hr1 hN
    simpa [reset_counters] using this
  have h1 : ¬ (("find_max_bounds" : String) = "test_disable") := by decide
  refine ⟨update_run_state s1 backend subsystem "bisect", ?_, hrange, ?_⟩
  · simp only [perform_bisection_step, hrs, if_neg h1, if_pos rfl, probeCalls,
      hrun, get_bisect_range, hrange]
    simp
  · exact get_run_state_update_self s1 backend subsystem "bisect"

/-- A state mid-session: cursor at `inductor`/`lowerings`, Run State
`find_max_bounds` persisted, nothing else. -/
def fmbState : BState :=
  { initState with
    statusFile := some ("inductor", "lowerings"),
    runStates := fun b t =>
      if b = "inductor" ∧ t = "lowerings" then some "find_max_bounds" else none }

theorem c1_witness :
    1 ≤ 3 ∧
    ∃ s2 : BState,
      perform_bisection_step (probeCalls "inductor" "lowerings" 3 false)
          "inductor" "lowerings" fmbState = (.ok (.cont "lowerings"), s2) ∧
      s2.ranges "inductor" "lowerings" = some (0, (3 : Int) - 1) ∧
      get_run_state s2 "inductor" "lowerings" = "bisect" :=
  ⟨by norm_num,
   c1_find_max_bounds_persists 3 "inductor" "lowerings" fmbState
     (by norm_num) rfl rfl rfl rfl (by decide)⟩

/-- Claim C1 as stated is false: a probe with exactly `N = 3` guarded calls
persists Range `[0, 2]`, not `[0, 3]`. -/
theorem c1_counterexample :
    (perform_bisection_step (probeCalls "inductor" "lowerings" 3 false)
        "inductor" "lowerings" fmbState).2.ranges "inductor" "lowerings"
      = some (0, 2) ∧
    some ((0 : Int), (2 : Int)) ≠ some (0, 3) := by
  exact ⟨by decide, by decide⟩

/-- `reset_counters` is idempotent and touches no file, so running the loop
body on a freshly reset state is the same as running it on the state
itself (the body begins by resetting anyway). -/
theorem perform_bisection_step_reset (fn : BState → Bool × BState)
    (backend subsystem : String) (s : BState) :
    perform_bisection_step fn backend subsystem (reset_counters s) =
      perform_bisection_step fn backend subsystem s := rfl

theorem get_subsystem_congr (s t : BState)
    (h1 : s.envSubsystem = t.envSubsystem) (h2 : s.statusFile = t.statusFile) :
    get_subsystem s = get_subsystem t := by
  unfold get_subsystem
  rw [h1, h2]

/-- Claim C3: in the `bisect` state with persisted Range `(lo, hi)` and
`mid = (lo + hi) // 2`, a probe returning `true` moves the persisted Range
to `[mid+1, hi]` and `false` to `[lo, mid]`; after the update, if the new
bounds coincide the subsystem search returns `True` (success) and `do_bisect`
reports that common value as the culprit call index.  (The probe is any
function that leaves `bisect_status.txt` and the environment alone, as real
probes do.) -/
theorem c3_bisect_step (backend subsystem : String)
    (probe : BState → Bool × BState) (s : BState) (lo hi nlo nhi : Int)
    (hbne : ¬ (backend = ""))
    (hb : get_backend s = backend)
    (hsub : get_subsystem s = subsystem)
    (hsubne : ¬ (subsystem = ""))
    (hrs : get_run_state s backend subsystem = "bisect")
    (hr : s.ranges backend subsystem = some (lo, hi))
    (hps : ∀ st : BState, ((probe st).2).statusFile = st.statusFile)
    (hpe : ∀ st : BState, ((probe st).2).envSubsystem = st.envSubsystem)
    (hnew : (nlo, nhi) =
      (if (probe (reset_counters s)).1 then ((lo + hi) / 2 + 1, hi)
       else (lo, (lo + hi) / 2))) :
    ∃ s2 : BState,
      perform_bisection_step probe backend subsystem s =
        (.ok (if nlo = nhi then .ret true else .cont subsystem), s2) ∧
      s2.ranges backend subsystem = some (nlo, nhi) ∧
      (nlo = nhi →
        do_bisect_cli_step probe s = .returned [backend, subsystem] nlo s2) := by
  have h1 : ¬ (("bisect" : String) = "test_disable") := by decide
  have h2 : ¬ (("bisect" : String) = "find_max_bounds") := by decide
  have hr0 : (reset_counters s).ranges backend subsystem = some (lo, hi) := hr
  set s0 := reset_counters s with hs0
  set s2 : BState :=
    if (probe s0).1 then
      update_bisect_range (probe s0).2 backend subsystem ((lo + hi) / 2 + 1) hi
    else
      update_bisect_range (probe s0).2 backend subsystem lo ((lo + hi) / 2)
    with hs2
  have hr2 : s2.ranges backend subsystem = some (nlo, nhi) := by
    rw [hs2]
    rcases hp : (probe s0).1 with _ | _ <;>
      simp only [hp, if_true, if_false, Bool.false_eq_true, ite_false, ite_true,
        ranges_update_self] <;>
      · rw [hnew]
        simp [hp]
  have hstep : perform_bisection_step probe backend subsystem s =
      (.ok (if nlo = nhi then .ret true else .cont subsystem), s2) := by
    simp only [perform_bisection_step, hrs, if_neg h1, if_neg h2, if_pos rfl,
      get_bisect_range, ← hs0, hr0]
    rcases hp : (probe s0).1 with _ | _ <;>
      simp only [hp, Bool.false_eq_true, ite_false, ite_true] <;>
      · have hr2' := hr2
        rw [hs2, hp] at hr2'
        simp only [Bool.false_eq_true, ite_false, ite_true] at hr2'
        simp only [hr2']
        rw [hs2, hp]
        simp only [Bool.false_eq_true, ite_false, ite_true]
        split <;> rfl
  refine ⟨s2, hstep, hr2, ?_⟩
  intro heq
  have hstatus2 : s2.statusFile = s.statusFile := by
    rw [hs2]
    rcases (probe s0).1 with _ | _ <;>
      simp only [Bool.false_eq_true, ite_false, ite_true, update_bisect_range] <;>
      exact hps s0
  have henv2 : s2.envSubsystem = s.envSubsystem := by
    rw [hs2]
    rcases (probe s0).1 with _ | _ <;>
      simp only [Bool.false_eq_true, ite_false, ite_true, update_bisect_range] <;>
      exact hpe s0
  have hsub2 : get_subsystem s2 = subsystem := by
    rw [get_subsystem_congr s2 s henv2 hstatus2, hsub]
  have hnot : ¬ (get_backend s = "") := by rw [hb]; exact hbne
  have hrange2 : get_bisect_range s2 backend subsystem = .ok (nlo, nhi) := by
    unfold get_bisect_range
    rw [hr2]
  unfold do_bisect_cli_step
  simp only [hnot, hb, hbne, hsub, hsubne, if_false, if_true, ite_false,
    ite_true, not_false_iff, eq_self_iff_true, perform_bisection_step_reset,
    hstep, heq, hsub2, hrange2]

theorem c3_witness :
    ∃ s2 : BState,
      perform_bisection_step (fun st => (true, st)) "inductor" "lowerings"
          { initState with
            statusFile := some ("inductor", "lowerings"),
            runStates := fun b t =>
              if b = "inductor" ∧ t = "lowerings" then some "bisect" else none,
            ranges := fun b t =>
              if b = "inductor" ∧ t = "lowerings" then some (0, 4) else none } =
        (.ok (if (3 : Int) = 4 then .ret true else .cont "lowerings"), s2) ∧
      s2.ranges "inductor" "lowerings" = some (3, 4) ∧
      ((3 : Int) = 4 →
        do_bisect_cli_step (fun st => (true, st))
            { initState with
              statusFile := some ("inductor", "lowerings"),
              runStates := fun b t =>
                if b = "inductor" ∧ t = "lowerings" then some "bisect" else none,
              ranges := fun b t =>
                if b = "inductor" ∧ t = "lowerings" then some (0, 4) else none } =
          .returned ["inductor", "lowerings"] 3 s2) := by
  exact c3_bisect_step "inductor" "lowerings" (fun st => (true, st)) _ 0 4 3 4
    (by decide) rfl rfl (by decide) (by decide) (by decide)
    (fun _ => rfl) (fun _ => rfl) (by decide)

/-- One loop iteration in the `bisect` state driven by the monotone probe
`monoProbe`: the range `(lo, hi)` becomes `(nlo, nhi)` and the iteration
returns iff the new bounds coincide. -/
theorem step_bisect_mono (backend subsystem : String) (c lo hi nlo nhi : Int)
    (s : BState)
    (hrs : get_run_state s backend subsystem = "bisect")
    (hr : s.ranges backend subsystem = some (lo, hi))
    (hnlo : nlo = if (lo + hi) / 2 < c then (lo + hi) / 2 + 1 else lo)
    (hnhi : nhi = if (lo + hi) / 2 < c then hi else (lo + hi) / 2) :
    perform_bisection_step (monoProbe backend subsystem c) backend subsystem s =
      (.ok (if nlo = nhi then .ret true else .cont subsystem),
       update_bisect_range (reset_counters s) backend subsystem nlo nhi) := by
  have h1 : ¬ (("bisect" : String) = "test_disable") := by decide
  have h2 : ¬ (("bisect" : String) = "find_max_bounds") := by decide
  have hr0 : (reset_counters s).ranges backend subsystem = some (lo, hi) := hr
  have hmid : midOf (reset_counters s) backend subsystem = (lo + hi) / 2 := by
    unfold midOf
    rw [hr0]
  by_cases hc : (lo + hi) / 2 < c
  · have hp : (monoProbe backend subsystem c (reset_counters s)).1 = true := by
      simp [monoProbe, hmid, hc]
    have hps : (monoProbe backend subsystem c (reset_counters s)).2 =
        reset_counters s := rfl
    simp only [perform_bisection_step, hrs, if_neg h1, if_neg h2, if_pos rfl,
      get_bisect_range, hr0, hp, hps, ite_true, ranges_update_self,
      hnlo, hnhi, if_pos hc]
    split <;> rfl
  · have hp : (monoProbe backend subsystem c (reset_counters s)).1 = false := by
      simp [monoProbe, hmid, hc]
    have hps : (monoProbe backend subsystem c (reset_counters s)).2 =
        reset_counters s := rfl
    simp only [perform_bisection_step, hrs, if_neg h1, if_neg h2, if_pos rfl,
      get_bisect_range, hr0, hp, hps, Bool.false_eq_true, ite_false,
      ranges_update_self, hnlo, hnhi, if_neg hc]
    simp only [if_true, ite_true, eq_self_iff_true]
    split <;> simp

/-- The bisect loop driven by the monotone probe with culprit index `c`
inside the invariant `lo ≤ c ≤ hi` terminates at range `(c, c)` and uses at
most `max 1 ⌈log₂ (d + 1)⌉` probes, where `d = hi - lo`. -/
theorem mono_loop (backend subsystem : String) (c : Int) :
    ∀ d : Nat, ∀ (lo hi : Int) (s : BState) (fuel : Nat),
      (hi - lo).toNat = d → lo ≤ c → c ≤ hi →
      get_run_state s backend subsystem = "bisect" →
      s.ranges backend subsystem = some (lo, hi) →
      d < fuel →
      ∃ (s2 : BState) (n : Nat),
        perform_bisection (monoProbe backend subsystem c) backend fuel
            subsystem s = (.ok true, s2, n) ∧
        s2.ranges backend subsystem = some (c, c) ∧
        1 ≤ n ∧ n ≤ max 1 (Nat.clog 2 (d + 1)) := by
  intro d
  induction d using Nat.strong_induction_on with
  | _ d ih =>
    intro lo hi s fuel hd hlc hch hrs hr hfuel
    obtain ⟨fuel, rfl⟩ : ∃ f, fuel = f + 1 := ⟨fuel - 1, by omega⟩
    by_cases hc : (lo + hi) / 2 < c
    · -- probe true: range becomes (mid + 1, hi)
      have hstep := step_bisect_mono backend subsystem c lo hi
        ((lo + hi) / 2 + 1) hi s hrs hr (by rw [if_pos hc]) (by rw [if_pos hc])
      by_cases hdone : (lo + hi) / 2 + 1 = hi
      · refine ⟨update_bisect_range (reset_counters s) backend subsystem
          ((lo + hi) / 2 + 1) hi, 1, ?_, ?_, le_refl 1, le_max_left 1 _⟩
        · simp only [perform_bisection, hstep, if_pos hdone]
        · rw [ranges_update_self, hdone]
          have hhc : hi = c := by omega
          rw [hhc]
      · set s1 : BState := update_bisect_range (reset_counters s)
          backend subsystem ((lo + hi) / 2 + 1) hi with hs1
        set d' : Nat := (hi - ((lo + hi) / 2 + 1)).toNat with hd'
        have hdlt : d' < d := by omega
        have hd1 : 1 ≤ d' := by omega
        have hdge : 1 ≤ d := by omega
        obtain ⟨s2, n', hloop, hrfin, hn1, hbound⟩ :=
          ih d' hdlt ((lo + hi) / 2 + 1) hi s1 fuel hd'.symm (by omega) hch
            (by rw [hs1, get_run_state_update_range, get_run_state_reset]
                exact hrs)
            (by rw [hs1]; exact ranges_update_self _ _ _ _ _)
            (by omega)
        refine ⟨s2, n' + 1, ?_, hrfin, by omega, ?_⟩
        · simp only [perform_bisection, hstep, if_neg hdone, hloop]
        · have hmax' : max 1 (Nat.clog 2 (d' + 1)) = Nat.clog 2 (d' + 1) :=
            max_eq_right (Nat.clog_pos one_lt_two (by omega))
          have hA : Nat.clog 2 (d' + 1) ≤ Nat.clog 2 ((d + 2) / 2) :=
            Nat.clog_mono_right 2 (by omega)
          have hB : Nat.clog 2 (d + 1) = Nat.clog 2 ((d + 2) / 2) + 1 := by
            rw [Nat.clog_of_two_le one_lt_two (by omega)]
            have harg : (d + 1 + 2 - 1) / 2 = (d + 2) / 2 := by omega
            rw [harg]
          calc n' + 1 ≤ Nat.clog 2 (d' + 1) + 1 := by omega
            _ ≤ Nat.clog 2 ((d + 2) / 2) + 1 := by omega
            _ = Nat.clog 2 (d + 1) := hB.symm
            _ ≤ max 1 (Nat.clog 2 (d + 1)) := le_max_right 1 _
    · -- probe false: range becomes (lo, mid)
      have hstep := step_bisect_mono backend subsystem c lo hi
        lo ((lo + hi) / 2) s hrs hr (by rw [if_neg hc]) (by rw [if_neg hc])
      by_cases hdone : lo = (lo + hi) / 2
      · refine ⟨update_bisect_range (reset_counters s) backend subsystem
          lo ((lo + hi) / 2), 1, ?_, ?_, le_refl 1, le_max_left 1 _⟩
        · simp only [perform_bisection, hstep, if_pos hdone]
        · rw [ranges_update_self, ← hdone]
          have hce : lo = c := by omega
          rw [hce]
      · set s1 : BState := update_bisect_range (reset_counters s)
          backend subsystem lo ((lo + hi) / 2) with hs1
        set d' : Nat := ((lo + hi) / 2 - lo).toNat with hd'
        have hdlt : d' < d := by omega
        have hd1 : 1 ≤ d' := by omega
        have hdge : 1 ≤ d := by omega
        obtain ⟨s2, n', hloop, hrfin, hn1, hbound⟩ :=
          ih d' hdlt lo ((lo + hi) / 2) s1 fuel hd'.symm hlc (by omega)
            (by rw [hs1, get_run_state_update_range, get_run_state_reset]
                exact hrs)
            (by rw [hs1]; exact ranges_update_self _ _ _ _ _)
            (by omega)
        refine ⟨s2, n' + 1, ?_, hrfin, by omega, ?_⟩
        · simp only [perform_bisection, hstep, if_neg hdone, hloop]
        · have hmax' : max 1 (Nat.clog 2 (d' + 1)) = Nat.clog 2 (d' + 1) :=
            max_eq_right (Nat.clog_pos one_lt_two (by omega))
          have hA : Nat.clog 2 (d' + 1) ≤ Nat.clog 2 ((d + 2) / 2) :=
            Nat.clog_mono_right 2 (by omega)
          have hB : Nat.clog 2 (d + 1) = Nat.clog 2 ((d + 2) / 2) + 1 := by
            rw [Nat.clog_of_two_le one_lt_two (by omega)]
            have harg : (d + 1 + 2 - 1) / 2 = (d + 2) / 2 := by omega
            rw [harg]
          calc n' + 1 ≤ Nat.clog 2 (d' + 1) + 1 := by omega
            _ ≤ Nat.clog 2 ((d + 2) / 2) + 1 := by omega
            _ = Nat.clog 2 (d + 1) := hB.symm
            _ ≤ max 1 (Nat.clog 2 (d + 1)) := le_max_right 1 _

/-- A session state with cursor at `inductor`/`lowerings`, Run State
`bisect` and persisted Range `(lo, hi)`. -/
def bisectState (lo hi : Int) : BState :=
  { initState with
    statusFile := some ("inductor", "lowerings"),
    runStates := fun b t =>
      if b = "inductor" ∧ t = "lowerings" then some "bisect" else none,
    ranges := fun b t =>
      if b = "inductor" ∧ t = "lowerings" then some (lo, hi) else none }

/-- Claim C2 (amended): for every `N ≥ 0` and culprit index `c ≤ N`, with
the monotone predicate that is *true* for suppression midpoints below `c`
and *false* at or above it (`monoProbe`), the bisect loop started from
persisted Range `[0, N]` terminates — fuel `N + 1` suffices and it returns
success rather than running out — ends with `low == high == c`, and
performs at *most* `max 1 ⌈log₂ (N + 1)⌉` probes (at least one even when
the range is already a point).  The spec's polarity ("false below the
threshold, true at/after") and its "exactly `⌈log₂(N+1)⌉` probes" are both
refuted by `c2_counterexample`. -/
theorem c2_bisect_loop_converges (N cv : Nat) (backend subsystem : String)
    (s : BState) (hc : cv ≤ N)
    (hrs : get_run_state s backend subsystem = "bisect")
    (hr : s.ranges backend subsystem = some (0, (N : Int))) :
    ∃ (s2 : BState) (n : Nat),
      perform_bisection (monoProbe backend subsystem (cv : Int)) backend
          (N + 1) subsystem s = (.ok true, s2, n) ∧
      s2.ranges backend subsystem = some ((cv : Int), (cv : Int)) ∧
      1 ≤ n ∧ n ≤ max 1 (Nat.clog 2 (N + 1)) := by
  exact mono_loop backend subsystem (cv : Int) N 0 (N : Int) s (N + 1)
    (by omega) (by omega) (by omega) hrs hr (by omega)

theorem c2_witness :
    (3 : Nat) ≤ 4 ∧
    ∃ (s2 : BState) (n : Nat),
      perform_bisection (monoProbe "inductor" "lowerings" ((3 : Nat) : Int))
          "inductor" (4 + 1) "lowerings" (bisectState 0 4) =
        (.ok true, s2, n) ∧
      s2.ranges "inductor" "lowerings" =
        some (((3 : Nat) : Int), ((3 : Nat) : Int)) ∧
      1 ≤ n ∧ n ≤ max 1 (Nat.clog 2 (4 + 1)) :=
  ⟨by norm_num,
   c2_bisect_loop_converges 4 3 "inductor" "lowerings" (bisectState 0 4)
     (by norm_num) (by decide) (by decide)⟩

/-- Claim C2 as stated is false on two counts.  (1) With the spec's stated
polarity (predicate false for midpoints below the culprit threshold, true
at/above — `specPolarityProbe`) and threshold `2` on Range `[0, 3]`, the
loop terminates at `low == high == 0`, not at the threshold `2`.  (2) Probe
counts are not exact: with the working polarity (`monoProbe`), culprit `2`
on Range `[0, 2]` finishes after `1` probe while `⌈log₂ (2+1)⌉ = 2`. -/
theorem c2_counterexample :
    (perform_bisection (specPolarityProbe "inductor" "lowerings" 2) "inductor"
        4 "lowerings" (bisectState 0 3)).2.1.ranges "inductor" "lowerings"
      = some (0, 0) ∧
    ¬ ((0 : Int) = 2) ∧
    (perform_bisection (monoProbe "inductor" "lowerings" 2) "inductor"
        3 "lowerings" (bisectState 0 2)).2.2 = 1 ∧
    Nat.clog 2 (2 + 1) = 2 ∧
    ¬ ((1 : Nat) = 2) := by
  refine ⟨by decide, by decide, by decide, ?_, by decide⟩
  show Nat.clog 2 3 = 2
  rw [Nat.clog_of_two_le one_lt_two (by norm_num)]
  norm_num
  rw [Nat.clog_of_two_le one_lt_two (by norm_num)]
  norm_num

/-- Claim C7: in Run State `find_max_bounds`, a probe returning `true`
raises the contract-violation `RuntimeError` and the persisted Run State is
left at `find_max_bounds` — not advanced to `bisect`.  (The probe is any
function that does not rewrite run-state files; guarded calls never do.) -/
theorem c7_find_max_bounds_true_raises (backend subsystem : String)
    (probe : BState → Bool × BState) (s : BState)
    (hrs : get_run_state s backend subsystem = "find_max_bounds")
    (hp : (probe (reset_counters s)).1 = true)
    (hpres : ∀ st : BState, ((probe st).2).runStates = st.runStates) :
    perform_bisection_step probe backend subsystem s =
      (.error ("Function succeeded with \x27find_max_bounds\x27 status for "
        ++ backend ++ " - " ++ subsystem ++ "."),
       (probe (reset_counters s)).2) ∧
    get_run_state ((probe (reset_counters s)).2) backend subsystem =
      "find_max_bounds" ∧
    ("find_max_bounds" : String) ≠ "bisect" := by
  have h1 : ¬ (("find_max_bounds" : String) = "test_disable") := by decide
  refine ⟨?_, ?_, by decide⟩
  · simp only [perform_bisection_step, hrs, if_neg h1, if_pos rfl, hp]
    norm_num
  · show get_run_state _ backend subsystem = _
    unfold get_run_state
    rw [hpres (reset_counters s)]
    exact hrs

theorem c7_witness :
    get_run_state fmbState "inductor" "lowerings" = "find_max_bounds" ∧
    perform_bisection_step (fun st => (true, st)) "inductor" "lowerings"
        fmbState =
      (.error ("Function succeeded with \x27find_max_bounds\x27 status for "
        ++ "inductor" ++ " - " ++ "lowerings" ++ "."),
       ((fun (st : BState) => (true, st)) (reset_counters fmbState)).2) ∧
    get_run_state
        (((fun (st : BState) => (true, st)) (reset_counters fmbState)).2)
        "inductor" "lowerings" = "find_max_bounds" ∧
    ("find_max_bounds" : String) ≠ "bisect" :=
  ⟨by decide,
   c7_find_max_bounds_true_raises "inductor" "lowerings"
     (fun st => (true, st)) fmbState (by decide) rfl (fun _ => rfl)⟩

/-! ### Claim C10 -/

theorem fnMark_fst (cmd : String) (st : BState) :
    (fnMark cmd st).1 = decide (cmd = "good") := rfl

theorem fnMark_counters_self (cmd : String) (st : BState) :
    (fnMark cmd st).2.counters "#fn_calls" = st.counters "#fn_calls" + 1 := by
  simp [fnMark]

theorem fnMark_runStates (cmd : String) (st : BState) :
    (fnMark cmd st).2.runStates = st.runStates := rfl

theorem fnMark_ranges (cmd : String) (st : BState) :
    (fnMark cmd st).2.ranges = st.ranges := rfl

theorem fnMark_statusFile (cmd : String) (st : BState) :
    (fnMark cmd st).2.statusFile = st.statusFile := rfl

/-- `advance_backend` never raises when the backend name is a `BACKENDS`
key, and it leaves the counters alone. -/
theorem advance_backend_ok (st : BState) (b : String)
    (h : ((BACKENDS.map (fun p => p.1)).findIdx? (fun x => x = b)).isSome) :
    ∃ x s2, advance_backend st b = .ok (x, s2) ∧ s2.counters = st.counters := by
  obtain ⟨i, hi⟩ := Option.isSome_iff_exists.mp h
  simp only [advance_backend, hi]
  by_cases hlt : i < (BACKENDS.map (fun p => p.1)).length - 1
  · refine ⟨some ((BACKENDS.map (fun p => p.1)).getD (i + 1) ""),
      update_bisect_status st ((BACKENDS.map (fun p => p.1)).getD (i + 1) "") "",
      ?_, rfl⟩
    rw [if_pos hlt]
  · exact ⟨none, st, by rw [if_neg hlt], rfl⟩

/-- `advance_subsystem` never raises when the names are known, and it
leaves the counters alone. -/
theorem advance_subsystem_ok (st : BState) (b sub : String) (l : List String)
    (hl : List.lookup b BACKENDS = some l)
    (h : (l.findIdx? (fun x => x = sub)).isSome) :
    ∃ x s2, advance_subsystem st b sub = .ok (x, s2) ∧
      s2.counters = st.counters := by
  obtain ⟨i, hi⟩ := Option.isSome_iff_exists.mp h
  simp only [advance_subsystem, hl, hi]
  by_cases hlt : i < l.length - 1
  · refine ⟨some (l.getD (i + 1) ""),
      update_run_state (update_bisect_status st b (l.getD (i + 1) "")) b
        (l.getD (i + 1) "") "test_disable", ?_, rfl⟩
    rw [if_pos hlt]
  · exact ⟨none, st, by rw [if_neg hlt], rfl⟩

/-- The session states on which a `good`/`bad` step is well-formed: a
backend is recorded and known; and either no subsystem is selected, or the
selected subsystem is known with a persisted Run State among the three
recognized values (`find_max_bounds` additionally demanding the command
`bad` — `good` there is the C7 contract violation — and, like `bisect`, a
persisted Range). -/
def goodBadReady (cmd : String) (s : BState) : Prop :=
  ¬ (get_backend s = "") ∧
  ((BACKENDS.map (fun p => p.1)).findIdx? (fun x => x = get_backend s)).isSome ∧
  (List.lookup (get_backend s) BACKENDS).isSome ∧
  (get_subsystem s = "" ∨
    ((((List.lookup (get_backend s) BACKENDS).getD []).findIdx?
        (fun x => x = get_subsystem s)).isSome ∧
      (get_run_state s (get_backend s) (get_subsystem s) = "test_disable" ∨
       (get_run_state s (get_backend s) (get_subsystem s) = "find_max_bounds" ∧
         ¬ (cmd = "good") ∧
         (s.ranges (get_backend s) (get_subsystem s)).isSome) ∨
       (get_run_state s (get_backend s) (get_subsystem s) = "bisect" ∧
         (s.ranges (get_backend s) (get_subsystem s)).isSome))))

/-- Claim C10 (amended): `good`/`bad` with no recorded backend fails with
the configuration error `Must call start prior to good or bad`, touching
nothing; on a well-formed session state (`goodBadReady` — in particular not
`good` during `find_max_bounds`, whose contract-violation error
`c10_counterexample` exhibits) the command performs exactly one probe of
the constant predicate (`good`→true, `bad`→false; the instrumented
`fnMark` counts its invocations), persists the resulting transition, and
the process terminates with success status. -/
theorem c10_good_bad_cli (cmd : String) (s : BState)
    (hcmd : cmd = "good" ∨ cmd = "bad") :
    (get_backend s = "" →
      run_good_bad (fnMark cmd) s =
        .usageError "Must call start prior to good or bad" s) ∧
    (goodBadReady cmd s →
      (run_good_bad (fnMark cmd) s).isSuccessB = true ∧
      (run_good_bad (fnMark cmd) s).state.counters "#fn_calls" = 1) := by
  constructor
  · intro h
    simp [run_good_bad, h]
  · rintro ⟨hbne, hkey, hlk, hdis⟩
    obtain ⟨l, hl⟩ := Option.isSome_iff_exists.mp hlk
    have hrgb : run_good_bad (fnMark cmd) s = do_bisect_cli_step (fnMark cmd) s := by
      simp [run_good_bad, hbne]
    rw [hrgb]
    have hcnt1 : (fnMark cmd (reset_counters s)).2.counters "#fn_calls" = 1 := by
      rw [fnMark_counters_self]
      rfl
    by_cases hsub : get_subsystem s = ""
    · -- backend-level probe
      rcases hcmd with hcg | hcb
      · -- good: fn true, advance_backend
        obtain ⟨x, s2, hadv, hc2⟩ :=
          advance_backend_ok (fnMark cmd (reset_counters s)).2 (get_backend s) hkey
        have hfst : (fnMark cmd (reset_counters s)).1 = true := by
          rw [fnMark_fst, hcg]
          rfl
        unfold do_bisect_cli_step
        simp only [hbne, ite_false, if_neg hbne, hsub, not_true, ite_true,
          if_neg (by simp : ¬ ¬ ("" : String) = ""), hfst, hadv]
        cases x <;>
          simp [CliResult.isSuccessB, CliResult.state, hc2, hcnt1]
      · -- bad: fn false, drill into the first subsystem (or report backend)
        have hfst : (fnMark cmd (reset_counters s)).1 = false := by
          rw [fnMark_fst, hcb]
          rfl
        unfold do_bisect_cli_step
        simp only [hbne, ite_false, if_neg hbne, hsub, not_true, ite_true,
          if_neg (by simp : ¬ ¬ ("" : String) = ""), hfst, hl]
        cases l <;>
          simp [CliResult.isSuccessB, CliResult.state, hcnt1, update_run_state,
            update_bisect_status]
    · -- subsystem-level probe
      rcases hdis with hdis | ⟨hfidx, hrscase⟩
      · exact absurd hdis hsub
      rw [hl] at hfidx
      simp only [Option.getD_some] at hfidx
      have hred : do_bisect_cli_step (fnMark cmd) s =
          match perform_bisection_step (fnMark cmd) (get_backend s)
              (get_subsystem s) s with
          | (.error e, s1) => .usageError e s1
          | (.ok (.ret true), s1) =>
            match get_bisect_range s1 (get_backend s) (get_subsystem s1) with
            | .error e => .usageError e s1
            | .ok lh => .returned [get_backend s, get_subsystem s1] lh.1 s1
          | (.ok (.ret false), s1) =>
            match advance_subsystem s1 (get_backend s) (get_subsystem s) with
            | .error e => .usageError e s1
            | .ok (none, s2) => .returned [get_backend s] 0 s2
            | .ok (some _, s2) => .exitSuccess s2
          | (.ok (.cont _), s1) => .exitSuccess s1 := by
        unfold do_bisect_cli_step
        simp only [hbne, ite_false, if_neg hbne, if_pos hsub,
          perform_bisection_step_reset]
      rw [hred]
      rcases hrscase with hrs | ⟨hrs, hnotgood, hrng⟩ | ⟨hrs, hrng⟩
      · -- test_disable
        rcases hcmd with hcg | hcb
        · have hfst : (fnMark cmd (reset_counters s)).1 = true := by
            rw [fnMark_fst, hcg]
            rfl
          have hstep : perform_bisection_step (fnMark cmd) (get_backend s)
              (get_subsystem s) s =
              (.ok (.cont (get_subsystem s)),
               update_run_state (fnMark cmd (reset_counters s)).2
                 (get_backend s) (get_subsystem s) "find_max_bounds") := by
            simp only [perform_bisection_step, hrs, if_pos rfl, hfst]
            simp
          rw [hstep]
          simp [CliResult.isSuccessB, CliResult.state, update_run_state, hcnt1]
        · have hfst : (fnMark cmd (reset_counters s)).1 = false := by
            rw [fnMark_fst, hcb]
            rfl
          obtain ⟨x, s2, hadv, hc2⟩ :=
            advance_subsystem_ok (fnMark cmd (reset_counters s)).2
              (get_backend s) (get_subsystem s) l hl hfidx
          have hstep : perform_bisection_step (fnMark cmd) (get_backend s)
              (get_subsystem s) s =
              (match x with
               | none => (.ok (.ret false), s2)
               | some nxt => (.ok (.cont nxt), s2)) := by
            simp only [perform_bisection_step, hrs, if_pos rfl, hfst, hadv]
            cases x <;> simp
          cases x with
          | none =>
            rw [hstep]
            obtain ⟨x2, s3, hadv2, hc3⟩ :=
              advance_subsystem_ok s2 (get_backend s) (get_subsystem s) l hl hfidx
            simp only [hadv2]
            cases x2 <;>
              simp [CliResult.isSuccessB, CliResult.state, hc3, hc2, hcnt1]
          | some nxt =>
            rw [hstep]
            simp [CliResult.isSuccessB, CliResult.state, hc2, hcnt1]
      · -- find_max_bounds with cmd = bad
        have hcb : cmd = "bad" := by tauto
        have hfst : (fnMark cmd (reset_counters s)).1 = false := by
          rw [fnMark_fst, hcb]
          rfl
        obtain ⟨lh, hlh⟩ := Option.isSome_iff_exists.mp hrng
        have hgr : get_bisect_range (fnMark cmd (reset_counters s)).2
            (get_backend s) (get_subsystem s) = .ok lh := by
          unfold get_bisect_range
          rw [fnMark_ranges]
          show (match s.ranges (get_backend s) (get_subsystem s) with
            | some lh => Except.ok lh
            | none => _) = _
          rw [hlh]
        have h1 : ¬ (("find_max_bounds" : String) = "test_disable") := by decide
        have hstep : perform_bisection_step (fnMark cmd) (get_backend s)
            (get_subsystem s) s =
            (.ok (.cont (get_subsystem s)),
             update_run_state (fnMark cmd (reset_counters s)).2
               (get_backend s) (get_subsystem s) "bisect") := by
          simp only [perform_bisection_step, hrs, if_neg h1, if_pos rfl, hfst,
            hgr]
          simp
        rw [hstep]
        simp [CliResult.isSuccessB, CliResult.state, update_run_state, hcnt1]
      · -- bisect
        obtain ⟨lh, hlh⟩ := Option.isSome_iff_exists.mp hrng
        have h1 : ¬ (("bisect" : String) = "test_disable") := by decide
        have h2 : ¬ (("bisect" : String) = "find_max_bounds") := by decide
        have hr0 : (reset_counters s).ranges (get_backend s) (get_subsystem s)
            = some lh := hlh
        have hgr0 : get_bisect_range (reset_counters s) (get_backend s)
            (get_subsystem s) = .ok lh := by
          unfold get_bisect_range
          rw [hr0]
        set sF : BState :=
          if (fnMark cmd (reset_counters s)).1 then
            update_bisect_range (fnMark cmd (reset_counters s)).2
              (get_backend s) (get_subsystem s) ((lh.1 + lh.2) / 2 + 1) lh.2
          else
            update_bisect_range (fnMark cmd (reset_counters s)).2
              (get_backend s) (get_subsystem s) lh.1 ((lh.1 + lh.2) / 2)
          with hsF
        have hcF : sF.counters "#fn_calls" = 1 := by
          rw [hsF]
          split <;> exact hcnt1
        have hstatF : sF.statusFile = s.statusFile := by
          rw [hsF]
          split <;> rfl
        have henvF : sF.envSubsystem = s.envSubsystem := by
          rw [hsF]
          split <;> rfl
        have hsubF : get_subsystem sF = get_subsystem s :=
          get_subsystem_congr sF s henvF hstatF
        obtain ⟨nlo, nhi, hrF⟩ : ∃ nlo nhi,
            sF.ranges (get_backend s) (get_subsystem s) = some (nlo, nhi) := by
          rw [hsF]
          split <;> exact ⟨_, _, ranges_update_self _ _ _ _ _⟩
        have hgrF : get_bisect_range sF (get_backend s) (get_subsystem s) =
            .ok (nlo, nhi) := by
          unfold get_bisect_range
          rw [hrF]
        have hstep : perform_bisection_step (fnMark cmd) (get_backend s)
            (get_subsystem s) s =
            (if nlo = nhi then (.ok (.ret true), sF)
             else (.ok (.cont (get_subsystem s)), sF)) := by
          simp only [perform_bisection_step, hrs, if_neg h1, if_neg h2,
            if_pos rfl, hgr0]
          rcases hb1 : (fnMark cmd (reset_counters s)).1 with _ | _ <;>
            · rw [hsF, hb1]
              simp only [Bool.false_eq_true, ite_false, ite_true]
              have hrF' := hrF
              rw [hsF, hb1] at hrF'
              simp only [Bool.false_eq_true, ite_false, ite_true] at hrF'
              simp only [get_bisect_range, hrF']
        rw [hstep]
        by_cases hdone : nlo = nhi
        · rw [if_pos hdone]
          simp only [hsubF, hgrF]
          simp [CliResult.isSuccessB, CliResult.state, hcF]
        · rw [if_neg hdone]
          simp [CliResult.isSuccessB, CliResult.state, hcF]

theorem c10_witness :
    (("bad" : String) = "good" ∨ ("bad" : String) = "bad") ∧
    goodBadReady "bad" (update_bisect_status initState "eager" "") ∧
    ((run_good_bad (fnMark "bad")
        (update_bisect_status initState "eager" "")).isSuccessB = true ∧
     (run_good_bad (fnMark "bad")
        (update_bisect_status initState "eager" "")).state.counters
       "#fn_calls" = 1) :=
  have hready : goodBadReady "bad" (update_bisect_status initState "eager" "") :=
    ⟨by decide, by decide, by decide, Or.inl (by decide)⟩
  ⟨Or.inr rfl, hready,
   (c10_good_bad_cli "bad" (update_bisect_status initState "eager" "")
     (Or.inr rfl)).2 hready⟩

/-- Claim C10 as stated is false in its success clause: with a session
present (`inductor`/`lowerings` in Run State `find_max_bounds`), the `good`
command raises the contract-violation error instead of exiting with
success status. -/
theorem c10_counterexample :
    ¬ (get_backend fmbState = "") ∧
    (run_good_bad (fnMark "good") fmbState).isSuccessB = false := by
  exact ⟨by decide, by decide⟩

theorem c6_witness :
    let s := { initState with
      statusFile := some ("inductor", "lowerings"),
      runStates := fun b t =>
        if b = "inductor" ∧ t = "lowerings" then some "garbage" else none }
    ((disable_subsystem s "inductor" "lowerings" none).1 =
        .error ("Trying to get bisect range when it is not set: subsystem "
          ++ "lowerings"))
      ↔ s.ranges "inductor" "lowerings" = none := by
  exact c6_other_run_state_guard _ "inductor" "lowerings" none
    rfl rfl rfl rfl (by decide) (by decide)
